import Mathlib

/-!
Verification of the calculation engine of the Bond-Loan Investment Simulator
(src/app.py), shallowly embedded over `ℚ`.

All monetary amounts and rates are embedded as rational numbers: the Python
script manipulates floats through closed-form rational arithmetic only, so
every quantity it computes is a rational function of the inputs, and the
spec's stated tolerances (1e-6 relative) are implied by the exact identities
proved here.

Note on division: `ℚ` division is total with `x / 0 = 0`.  Python float
division of `0.0 / 0.0` yields NaN instead.  The only place this matters is
`bond2_sip` at a zero monthly rate (src/app.py line 77), which the interface
makes unreachable (the Bond 2 rate slider has minimum 1.0); under either
convention the value at rate 0 is not `contribution × months`, which is what
is at issue in the corresponding claim.
-/

namespace BondSim

/-- The three options of the sidebar "Investor Type" selectbox
(src/app.py line 33). -/
inductive InvestorType
  | individual30
  | privateLtd25
  | customRate
  deriving DecidableEq

/-- The label string of each selectbox option (src/app.py line 33):
"Individual (30%)", "Private Ltd (25%)", "Custom Rate". -/
def investorTypeLabel : InvestorType → String
  | .individual30 => "Individual (30%)"
  | .privateLtd25 => "Private Ltd (25%)"
  | .customRate => "Custom Rate"

/-- `needleIsPrefixOf needle hay`: the character list `needle` is an initial
segment of `hay` (used to embed Python's substring test). -/
def needleIsPrefixOf : List Char → List Char → Bool
  | [], _ => true
  | _ :: _, [] => false
  | a :: as, b :: bs => a == b && needleIsPrefixOf as bs

/-- `containsSub needle hay`: `needle` occurs as a contiguous substring of
`hay` (Python's `needle in hay` for strings). -/
def containsSub (needle : List Char) : List Char → Bool
  | [] => needleIsPrefixOf needle []
  | h :: t => needleIsPrefixOf needle (h :: t) || containsSub needle t

/-- Python `"Individual" in investor_type` (src/app.py lines 83, 113),
where `investor_type` is the selected option's label. -/
def containsIndividual (t : InvestorType) : Bool :=
  containsSub "Individual".data (investorTypeLabel t).data

/-- The `tax_rate` selection (src/app.py lines 34-37): a custom slider value
for "Custom Rate", otherwise 30.0 for "Individual (30%)" and 25.0 for
"Private Ltd (25%)".  The widget layer (`read_tax_rate` below) additionally
restricts the custom slider to its range. -/
def tax_rate (t : InvestorType) (custom : ℚ) : ℚ :=
  if t = .customRate then custom
  else if containsIndividual t then 30 else 25

/-! ### numpy_financial functions

The script computes the loan schedule with `pmt`, `ipmt` and `ppmt` from
numpy_financial (src/app.py line 5).  They are embedded below from that
library's closed forms, specialised to the script's use: `fv = 0` and
`when = 'end'` (the defaults).  numpy_financial special-cases `rate == 0`
internally (its `fact` becomes `nper`), which is the only zero-rate
special-casing present anywhere in the loan computation. -/

/-- numpy_financial `pmt rate nper pv` with `fv = 0`, `when = 'end'`:
`-(pv·(1+rate)^nper) / fact` where `fact = ((1+rate)^nper − 1)/rate`, and
`fact = nper` when `rate == 0`. -/
def npf_pmt (rate : ℚ) (nper : ℕ) (pv : ℚ) : ℚ :=
  if rate = 0 then -(pv * (1 + rate) ^ nper) / (nper : ℚ)
  else -(pv * (1 + rate) ^ nper) / (((1 + rate) ^ nper - 1) / rate)

/-- numpy_financial `fv rate nper pmt pv` with `when = 'end'`:
`-(pv·(1+rate)^nper + pmt·fact)` with the same `fact` as in `npf_pmt`. -/
def npf_fv (rate : ℚ) (nper : ℕ) (pmtv pv : ℚ) : ℚ :=
  if rate = 0 then -(pv * (1 + rate) ^ nper + pmtv * (nper : ℚ))
  else -(pv * (1 + rate) ^ nper + pmtv * (((1 + rate) ^ nper - 1) / rate))

/-- numpy_financial `ipmt rate per nper pv` with `fv = 0`, `when = 'end'`:
the remaining balance before period `per` (numpy_financial's `_rbl`, i.e.
`fv` after `per − 1` periods) times the rate. -/
def npf_ipmt (rate : ℚ) (per nper : ℕ) (pv : ℚ) : ℚ :=
  npf_fv rate (per - 1) (npf_pmt rate nper pv) pv * rate

/-- numpy_financial `ppmt rate per nper pv`: total payment minus interest
portion. -/
def npf_ppmt (rate : ℚ) (per nper : ℕ) (pv : ℚ) : ℚ :=
  npf_pmt rate nper pv - npf_ipmt rate per nper pv

/-! ### The calculation block (src/app.py lines 41-100) -/

/-- `monthly_bond1_interest = initial * (bond1_rate / 12 / 100)`
(src/app.py line 43). -/
def monthly_bond1_interest (initial bond1_rate : ℚ) : ℚ :=
  initial * (bond1_rate / 12 / 100)

/-- `rate_per_period = loan_rate / 12 / 100` (src/app.py line 46). -/
def rate_per_period (loan_rate : ℚ) : ℚ :=
  loan_rate / 12 / 100

/-- `emi = -pmt(rate_per_period, months, initial)` (src/app.py line 47). -/
def emi (rate : ℚ) (months : ℕ) (initial : ℚ) : ℚ :=
  -(npf_pmt rate months initial)

/-- `interest_payment = -ipmt(rate_per_period, month, months, initial)`
(src/app.py line 53). -/
def interest_payment (rate : ℚ) (per months : ℕ) (initial : ℚ) : ℚ :=
  -(npf_ipmt rate per months initial)

/-- `principal_payment = -ppmt(rate_per_period, month, months, initial)`
(src/app.py line 54). -/
def principal_payment (rate : ℚ) (per months : ℕ) (initial : ℚ) : ℚ :=
  -(npf_ppmt rate per months initial)

/-- One row of the amortization schedule appended at src/app.py
lines 56-62. -/
structure Row where
  month : ℕ
  emi : ℚ
  principal : ℚ
  interest : ℚ
  remaining : ℚ
  deriving DecidableEq

/-- The schedule loop of src/app.py lines 50-62, parameterised by the number
`k` of iterations still to run, the current month `m`, and the running
`remaining_principal` value `rem`. -/
def scheduleGo (rate : ℚ) (months : ℕ) (initial emiv : ℚ) :
    ℕ → ℕ → ℚ → List Row
  | 0, _, _ => []
  | k + 1, m, rem =>
    { month := m
      emi := emiv
      principal := principal_payment rate m months initial
      interest := interest_payment rate m months initial
      remaining := rem - principal_payment rate m months initial } ::
      scheduleGo rate months initial emiv k (m + 1)
        (rem - principal_payment rate m months initial)

/-- `loan_schedule`: the full loop, months `1..months`, with
`remaining_principal` starting at `initial` (src/app.py lines 50-62). -/
def loan_schedule (rate : ℚ) (months : ℕ) (initial : ℚ) : List Row :=
  scheduleGo rate months initial (emi rate months initial) months 1 initial

/-- `total_loan_interest = loan_df["Interest"].sum()` (src/app.py line 64). -/
def total_loan_interest (rate : ℚ) (months : ℕ) (initial : ℚ) : ℚ :=
  ((loan_schedule rate months initial).map Row.interest).sum

/-- `monthly_bond2_return = bond2_rate / 12 / 100` (src/app.py line 71). -/
def monthly_bond2_return (bond2_rate : ℚ) : ℚ :=
  bond2_rate / 12 / 100

/-- `bond2_lumpsum = initial_bond2 * (1 + monthly_bond2_return)**months`
(src/app.py line 74). -/
def bond2_lumpsum (initial r : ℚ) (months : ℕ) : ℚ :=
  initial * (1 + r) ^ months

/-- `bond2_sip` (src/app.py line 77): the annuity-due future-value formula,
applied unconditionally — the script contains no `rate == 0` branch here.
In Python a zero rate would produce a NaN (float `0.0/0.0`); in this `ℚ`
embedding division by zero yields 0.  Under neither convention does the
value at rate 0 equal `contribution × months`. -/
def bond2_sip (monthly_sip r : ℚ) (months : ℕ) : ℚ :=
  monthly_sip * (((1 + r) ^ months - 1) / r) * (1 + r)

/-- `total_bond2_value = bond2_lumpsum + bond2_sip` (src/app.py line 79). -/
def total_bond2_value (initial monthly_sip r : ℚ) (months : ℕ) : ℚ :=
  bond2_lumpsum initial r months + bond2_sip monthly_sip r months

/-- `bond2_gain = total_bond2_value - initial_bond2 - monthly_sip * months`
(src/app.py line 80). -/
def bond2_gain (initial monthly_sip r : ℚ) (months : ℕ) : ℚ :=
  total_bond2_value initial monthly_sip r months - initial - monthly_sip * months

/-- The four figures produced by the tax block (src/app.py lines 82-94). -/
structure TaxResult where
  bond1_tax : ℚ
  bond2_tax_amount : ℚ
  loan_interest_deduction : ℚ
  total_tax : ℚ
  deriving DecidableEq

/-- The tax block (src/app.py lines 82-94): the `if "Individual" in
investor_type` branch taxes bond 2 gain at `bond2_tax` and grants no loan
deduction; the `else` branch (companies, and also "Custom Rate") taxes all
income at `tax_rate` and deducts `total_loan_interest * tax_rate / 100`. -/
def computeTax (t : InvestorType) (mb1i : ℚ) (months : ℕ)
    (b2gain tli trate b2taxrate : ℚ) : TaxResult :=
  if containsIndividual t then
    { bond1_tax := mb1i * months * (trate / 100)
      bond2_tax_amount := b2gain * (b2taxrate / 100)
      loan_interest_deduction := 0
      total_tax := mb1i * months * (trate / 100) + b2gain * (b2taxrate / 100) }
  else
    { bond1_tax := mb1i * months * (trate / 100)
      bond2_tax_amount := b2gain * (trate / 100)
      loan_interest_deduction := tli * (trate / 100)
      total_tax := mb1i * months * (trate / 100) + b2gain * (trate / 100)
        - tli * (trate / 100) }

/-- `bond1_total_interest = monthly_bond1_interest * months`
(src/app.py line 97). -/
def bond1_total_interest (mb1i : ℚ) (months : ℕ) : ℚ :=
  mb1i * months

/-- `total_gain = bond1_total_interest + bond2_gain` (src/app.py line 98). -/
def total_gain (b1ti b2g : ℚ) : ℚ :=
  b1ti + b2g

/-- `net_gain = total_gain - total_loan_interest - total_tax`
(src/app.py line 99). -/
def net_gain (tg tli ttax : ℚ) : ℚ :=
  tg - tli - ttax

/-- `annualized_return = (net_gain / initial) * (12 / months) * 100`
(src/app.py line 100). -/
def annualized_return (ng initial : ℚ) (months : ℕ) : ℚ :=
  (ng / initial) * (12 / (months : ℚ)) * 100

/-- One month's portfolio value in the growth-projection loop
(src/app.py lines 137-142): the lump-sum and SIP formulas with the running
`month` substituted for `months`. -/
def bond2_value_at (initial monthly_sip r : ℚ) (month : ℕ) : ℚ :=
  initial * (1 + r) ^ month +
    monthly_sip * (((1 + r) ^ month - 1) / r) * (1 + r)

/-- `bond2_values`: the projection list over `months_list = [1..months]`
(src/app.py lines 134-142). -/
def bond2_values (initial monthly_sip r : ℚ) (months : ℕ) : List ℚ :=
  (List.range' 1 months).map (bond2_value_at initial monthly_sip r)

/-! ### The assembled simulation -/

/-- The scalar inputs feeding the calculation block, as they stand after the
sidebar widgets have produced them (src/app.py lines 24-39). -/
structure SimInputs where
  initial : ℚ
  bond1_rate : ℚ
  bond2_rate : ℚ
  loan_rate : ℚ
  months : ℕ
  investor_type : InvestorType
  tax_rate : ℚ
  bond2_tax : ℚ

/-- Every quantity the calculation block computes
(src/app.py lines 41-100). -/
structure SimResult where
  monthly_bond1_interest : ℚ
  emi : ℚ
  schedule : List Row
  total_loan_interest : ℚ
  monthly_sip : ℚ
  bond2_lumpsum : ℚ
  bond2_sip : ℚ
  total_bond2_value : ℚ
  bond2_gain : ℚ
  tax : TaxResult
  bond1_total_interest : ℚ
  total_gain : ℚ
  net_gain : ℚ
  annualized_return : ℚ

/-- The straight-line calculation block of src/app.py lines 41-100 as one
function from inputs to results.  `monthly_sip` is set to the monthly bond 1
interest (line 67) and `initial_bond2` to `initial` (line 68). -/
def simulate (inp : SimInputs) : SimResult :=
  { monthly_bond1_interest := monthly_bond1_interest inp.initial inp.bond1_rate
    emi := emi (rate_per_period inp.loan_rate) inp.months inp.initial
    schedule := loan_schedule (rate_per_period inp.loan_rate) inp.months inp.initial
    total_loan_interest := total_loan_interest (rate_per_period inp.loan_rate) inp.months inp.initial
    monthly_sip := monthly_bond1_interest inp.initial inp.bond1_rate
    bond2_lumpsum := bond2_lumpsum inp.initial (monthly_bond2_return inp.bond2_rate) inp.months
    bond2_sip := bond2_sip (monthly_bond1_interest inp.initial inp.bond1_rate)
      (monthly_bond2_return inp.bond2_rate) inp.months
    total_bond2_value := total_bond2_value inp.initial
      (monthly_bond1_interest inp.initial inp.bond1_rate)
      (monthly_bond2_return inp.bond2_rate) inp.months
    bond2_gain := bond2_gain inp.initial
      (monthly_bond1_interest inp.initial inp.bond1_rate)
      (monthly_bond2_return inp.bond2_rate) inp.months
    tax := computeTax inp.investor_type
      (monthly_bond1_interest inp.initial inp.bond1_rate) inp.months
      (bond2_gain inp.initial (monthly_bond1_interest inp.initial inp.bond1_rate)
        (monthly_bond2_return inp.bond2_rate) inp.months)
      (total_loan_interest (rate_per_period inp.loan_rate) inp.months inp.initial)
      inp.tax_rate inp.bond2_tax
    bond1_total_interest := bond1_total_interest
      (monthly_bond1_interest inp.initial inp.bond1_rate) inp.months
    total_gain := total_gain
      (bond1_total_interest (monthly_bond1_interest inp.initial inp.bond1_rate) inp.months)
      (bond2_gain inp.initial (monthly_bond1_interest inp.initial inp.bond1_rate)
        (monthly_bond2_return inp.bond2_rate) inp.months)
    net_gain := net_gain
      (total_gain
        (bond1_total_interest (monthly_bond1_interest inp.initial inp.bond1_rate) inp.months)
        (bond2_gain inp.initial (monthly_bond1_interest inp.initial inp.bond1_rate)
          (monthly_bond2_return inp.bond2_rate) inp.months))
      (total_loan_interest (rate_per_period inp.loan_rate) inp.months inp.initial)
      (computeTax inp.investor_type
        (monthly_bond1_interest inp.initial inp.bond1_rate) inp.months
        (bond2_gain inp.initial (monthly_bond1_interest inp.initial inp.bond1_rate)
          (monthly_bond2_return inp.bond2_rate) inp.months)
        (total_loan_interest (rate_per_period inp.loan_rate) inp.months inp.initial)
        inp.tax_rate inp.bond2_tax).total_tax
    annualized_return := annualized_return
      (net_gain
        (total_gain
          (bond1_total_interest (monthly_bond1_interest inp.initial inp.bond1_rate) inp.months)
          (bond2_gain inp.initial (monthly_bond1_interest inp.initial inp.bond1_rate)
            (monthly_bond2_return inp.bond2_rate) inp.months))
        (total_loan_interest (rate_per_period inp.loan_rate) inp.months inp.initial)
        (computeTax inp.investor_type
          (monthly_bond1_interest inp.initial inp.bond1_rate) inp.months
          (bond2_gain inp.initial (monthly_bond1_interest inp.initial inp.bond1_rate)
            (monthly_bond2_return inp.bond2_rate) inp.months)
          (total_loan_interest (rate_per_period inp.loan_rate) inp.months inp.initial)
          inp.tax_rate inp.bond2_tax).total_tax)
      inp.initial inp.months }

/-! ### The widget layer (src/app.py lines 24-39)

Each sidebar widget carries a minimum and a maximum (the second and third
arguments of `st.number_input` / `st.slider`); streamlit refuses an
out-of-range value, so a value outside the range never reaches the
calculation block.  This is modelled as `Option`-returning guards:
`none` is the widget rejecting the value. -/

/-- `st.number_input` with bounds `[lo, hi]` (src/app.py line 26). -/
def number_input (lo hi x : ℚ) : Option ℚ :=
  if lo ≤ x ∧ x ≤ hi then some x else none

/-- `st.slider` with bounds `[lo, hi]` (src/app.py lines 27-30, 35, 39). -/
def slider (lo hi x : ℚ) : Option ℚ :=
  if lo ≤ x ∧ x ≤ hi then some x else none

/-- The integer tenure slider with bounds `[lo, hi]` (src/app.py line 30). -/
def slider_int (lo hi x : ℤ) : Option ℤ :=
  if lo ≤ x ∧ x ≤ hi then some x else none

/-- The `tax_rate` acquisition (src/app.py lines 34-37): for "Custom Rate"
the rate comes from a slider with range `[0.1, 35.0]`; otherwise it is the
fixed 30.0 / 25.0 according to the substring test on the label. -/
def read_tax_rate (t : InvestorType) (custom : ℚ) : Option ℚ :=
  if t = .customRate then slider (1/10) 35 custom
  else some (if containsIndividual t then 30 else 25)

/-- The whole sidebar (src/app.py lines 24-39): each raw candidate value is
passed through its widget's range guard; any rejection aborts before the
calculation block runs. -/
def readInputs (principal b1 b2 lr : ℚ) (months : ℤ) (t : InvestorType)
    (custom b2t : ℚ) : Option SimInputs := do
  let initial ← number_input 100000 10000000 principal
  let bond1_rate ← slider 1 30 b1
  let bond2_rate ← slider 1 30 b2
  let loan_rate ← slider 1 20 lr
  let m ← slider_int 1 60 months
  let trate ← read_tax_rate t custom
  let b2tax ← slider 0 30 b2t
  some ⟨initial, bond1_rate, bond2_rate, loan_rate, m.toNat, t, trate, b2tax⟩

/-- The app end to end: widget acquisition, then the calculation block.
`none` means the inputs were rejected and no result (not even a partial
one) was computed. -/
def runApp (principal b1 b2 lr : ℚ) (months : ℤ) (t : InvestorType)
    (custom b2t : ℚ) : Option SimResult :=
  (readInputs principal b1 b2 lr months t custom b2t).map simulate

/-! ### Closed-form helpers for the amortization proofs -/

/-- The outstanding loan balance after `m` payments of
`npf_pmt rate months pv`, in closed form: this is `-fv` after `m`
periods, the quantity numpy_financial's `_rbl` tracks. -/
def balance (rate : ℚ) (months : ℕ) (pv : ℚ) (m : ℕ) : ℚ :=
  pv * (1 + rate) ^ m +
    npf_pmt rate months pv * (((1 + rate) ^ m - 1) / rate)

/-- The `remaining` field of the last row of a schedule (0 for an empty
schedule; every schedule considered below is nonempty). -/
def lastRemaining (l : List Row) : ℚ :=
  (Option.map Row.remaining l.getLast?).getD 0

/-! ### Helper lemmas -/

/-- Evaluation of the Python substring test on "Individual (30%)". -/
theorem containsIndividual_individual30 :
    containsIndividual .individual30 = true := by decide

/-- Evaluation of the Python substring test on "Private Ltd (25%)". -/
theorem containsIndividual_privateLtd25 :
    containsIndividual .privateLtd25 = false := by decide

/-- Evaluation of the Python substring test on "Custom Rate". -/
theorem containsIndividual_customRate :
    containsIndividual .customRate = false := by decide

/-- With a zero loan rate, every interest entry produced by the schedule
loop is zero (numpy_financial's `ipmt` is the remaining balance times the
rate), so the interest column sums to zero. -/
theorem interest_sum_zero_rate (months : ℕ) (initial emiv : ℚ) :
    ∀ (k m : ℕ) (rem : ℚ),
      ((scheduleGo 0 months initial emiv k m rem).map Row.interest).sum = 0 := by
  intro k
  induction k with
  | zero => intro m rem; simp [scheduleGo]
  | succ k ih =>
    intro m rem
    simp [scheduleGo, interest_payment, npf_ipmt, ih]

/-! ### Claim theorems -/

/-- C5: for an Individual investor the tax block computes
bond1Tax = bond1TotalInterest × rate/100, bond2Tax = bond2Gain × bond2Rate/100,
no loan-interest deduction, totalTax the sum of the two; and a zero bond 2
gain yields a zero bond 2 tax. -/
theorem individual_tax_formulas (mb1i : ℚ) (months : ℕ)
    (b2g tli trate b2taxrate : ℚ) :
    computeTax .individual30 mb1i months b2g tli trate b2taxrate =
      { bond1_tax := bond1_total_interest mb1i months * (trate / 100)
        bond2_tax_amount := b2g * (b2taxrate / 100)
        loan_interest_deduction := 0
        total_tax := bond1_total_interest mb1i months * (trate / 100)
          + b2g * (b2taxrate / 100) } ∧
    (computeTax .individual30 mb1i months 0 tli trate b2taxrate).bond2_tax_amount
      = 0 := by
  constructor
  · simp [computeTax, containsIndividual_individual30, bond1_total_interest]
  · simp [computeTax, containsIndividual_individual30]

/-- C6: for a Company investor the tax block applies the investor rate to the
bond 2 gain (the bond 2 tax rate input does not affect the result), deducts
totalLoanInterest × rate/100, and returns the formula without clamping —
at bond1 interest 0, gain 0, loan interest 1000 and rate 25 the total tax is
negative. -/
theorem company_tax_formulas (mb1i : ℚ) (months : ℕ)
    (b2g tli trate b2taxrate b2taxrate' : ℚ) :
    computeTax .privateLtd25 mb1i months b2g tli trate b2taxrate =
      { bond1_tax := bond1_total_interest mb1i months * (trate / 100)
        bond2_tax_amount := b2g * (trate / 100)
        loan_interest_deduction := tli * (trate / 100)
        total_tax := bond1_total_interest mb1i months * (trate / 100)
          + b2g * (trate / 100) - tli * (trate / 100) } ∧
    computeTax .privateLtd25 mb1i months b2g tli trate b2taxrate =
      computeTax .privateLtd25 mb1i months b2g tli trate b2taxrate' ∧
    (computeTax .privateLtd25 0 12 0 1000 25 15).total_tax < 0 := by
  refine ⟨?_, ?_, ?_⟩
  · simp [computeTax, containsIndividual_privateLtd25, bond1_total_interest]
  · simp [computeTax, containsIndividual_privateLtd25]
  · simp only [computeTax, containsIndividual_privateLtd25, Bool.false_eq_true,
      if_false]
    norm_num

/-- C10: the "Custom Rate" option fails the `"Individual" in investor_type`
test and therefore takes the company branch of the tax block: the custom
rate is applied to the bond 2 gain, the separate bond 2 tax rate input is
ignored, and the loan-interest deduction is granted. -/
theorem custom_rate_takes_company_branch (mb1i : ℚ) (months : ℕ)
    (b2g tli trate b2taxrate b2taxrate' custom : ℚ)
    (h1 : 1/10 ≤ custom) (h2 : custom ≤ 35) :
    containsIndividual .customRate = false ∧
    read_tax_rate .customRate custom = some custom ∧
    computeTax .customRate mb1i months b2g tli trate b2taxrate =
      { bond1_tax := mb1i * months * (trate / 100)
        bond2_tax_amount := b2g * (trate / 100)
        loan_interest_deduction := tli * (trate / 100)
        total_tax := mb1i * months * (trate / 100) + b2g * (trate / 100)
          - tli * (trate / 100) } ∧
    computeTax .customRate mb1i months b2g tli trate b2taxrate =
      computeTax .customRate mb1i months b2g tli trate b2taxrate' := by
  refine ⟨containsIndividual_customRate, ?_, ?_, ?_⟩
  · unfold read_tax_rate slider
    rw [if_pos rfl, if_pos ⟨h1, h2⟩]
  · simp [computeTax, containsIndividual_customRate]
  · simp [computeTax, containsIndividual_customRate]

/-- Witness for C10 at a custom rate of 20. -/
theorem custom_rate_takes_company_branch_witness :
    containsIndividual .customRate = false ∧
    read_tax_rate .customRate 20 = some 20 ∧
    computeTax .customRate 1000 12 5000 2000 20 15 =
      { bond1_tax := 1000 * ((12:ℕ):ℚ) * (20 / 100)
        bond2_tax_amount := 5000 * (20 / 100)
        loan_interest_deduction := 2000 * (20 / 100)
        total_tax := 1000 * ((12:ℕ):ℚ) * (20 / 100) + 5000 * (20 / 100)
          - 2000 * (20 / 100) } ∧
    computeTax .customRate 1000 12 5000 2000 20 15 =
      computeTax .customRate 1000 12 5000 2000 20 10 :=
  custom_rate_takes_company_branch 1000 12 5000 2000 20 15 10 20
    (by norm_num) (by norm_num)

/-- C7: netGain = totalGain − totalLoanInterest − totalTax, and the
annualized figure is (netGain/principal) × (12/tenureMonths) × 100, hence
linear in 12/tenureMonths: doubling the tenure at fixed netGain and
principal halves it. -/
theorem net_gain_and_annualized_scaling (tg tli ttax ng initialv : ℚ)
    (months : ℕ) (hm : months ≠ 0) :
    net_gain tg tli ttax = tg - tli - ttax ∧
    annualized_return ng initialv months =
      (ng / initialv) * (12 / (months : ℚ)) * 100 ∧
    annualized_return ng initialv (2 * months) =
      annualized_return ng initialv months / 2 := by
  refine ⟨rfl, rfl, ?_⟩
  unfold annualized_return
  have h : (months : ℚ) ≠ 0 := Nat.cast_ne_zero.mpr hm
  push_cast
  field_simp
  ring

/-- Witness for C7 at netGain 12000, principal 100000, 12 months. -/
theorem net_gain_and_annualized_scaling_witness :
    net_gain 20000 5000 3000 = 20000 - 5000 - 3000 ∧
    annualized_return 12000 100000 12 =
      (12000 / 100000) * (12 / ((12:ℕ):ℚ)) * 100 ∧
    annualized_return 12000 100000 (2 * 12) =
      annualized_return 12000 100000 12 / 2 :=
  net_gain_and_annualized_scaling 20000 5000 3000 12000 100000 12 (by decide)

/-- C8: the simulation reinvests the monthly bond 1 interest as the bond 2
SIP contribution and uses the same principal as bond 2's lump-sum base;
totalValue is principal × (1+r)^n plus the SIP future value, and
bond2Gain = totalValue − principal − contribution × months. -/
theorem bond2_wiring_and_gain (inp : SimInputs) :
    (simulate inp).monthly_sip = monthly_bond1_interest inp.initial inp.bond1_rate ∧
    (simulate inp).bond2_lumpsum =
      inp.initial * (1 + monthly_bond2_return inp.bond2_rate) ^ inp.months ∧
    (simulate inp).total_bond2_value =
      inp.initial * (1 + monthly_bond2_return inp.bond2_rate) ^ inp.months +
        (simulate inp).monthly_sip *
          (((1 + monthly_bond2_return inp.bond2_rate) ^ inp.months - 1) /
            monthly_bond2_return inp.bond2_rate) *
          (1 + monthly_bond2_return inp.bond2_rate) ∧
    (simulate inp).bond2_gain =
      (simulate inp).total_bond2_value - inp.initial -
        (simulate inp).monthly_sip * inp.months :=
  ⟨rfl, rfl, rfl, rfl⟩

/-- C3 counterexample: the SIP computation of src/app.py line 77 has no
rate == 0 special case; at rate 0 its value is not contribution × months
(here contribution 1000 over 12 months: the formula's divisor is zero, and
the result — 0 under total division, NaN under Python floats — is not
12000). -/
theorem sip_zero_rate_not_special_cased :
    bond2_sip 1000 0 12 ≠ 1000 * 12 := by
  norm_num [bond2_sip]

/-- C3 amended: the SIP future value is computed by the annuity-due formula
unconditionally; no zero-rate branch exists, and none is reachable, because
the Bond 2 rate slider's minimum is 1.0 (a rate of 0 is rejected by the
widget), so the monthly rate is strictly positive. -/
theorem sip_formula_unconditional (c bond2_rate : ℚ) (months : ℕ)
    (h : 1 ≤ bond2_rate) :
    slider 1 30 0 = none ∧
    0 < monthly_bond2_return bond2_rate ∧
    bond2_sip c (monthly_bond2_return bond2_rate) months =
      c * (((1 + monthly_bond2_return bond2_rate) ^ months - 1) /
        monthly_bond2_return bond2_rate) *
        (1 + monthly_bond2_return bond2_rate) := by
  refine ⟨by norm_num [slider], ?_, rfl⟩
  unfold monthly_bond2_return
  have hb : 0 < bond2_rate := by linarith
  positivity

/-- Witness for the amended C3 at contribution 1000, annual rate 10,
12 months. -/
theorem sip_formula_unconditional_witness :
    slider 1 30 0 = none ∧
    0 < monthly_bond2_return 10 ∧
    bond2_sip 1000 (monthly_bond2_return 10) 12 =
      1000 * (((1 + monthly_bond2_return 10) ^ 12 - 1) /
        monthly_bond2_return 10) * (1 + monthly_bond2_return 10) :=
  sip_formula_unconditional 1000 10 12 (by decide)

/-- C2: the EMI is the reducing-balance formula
principal × r × (1+r)^n / ((1+r)^n − 1) for r ≠ 0; numpy_financial's pmt
special-cases r == 0 to principal/n; and at principal 100000, 12 months,
loan rate 0 the EMI is 100000/12 and the total loan interest is 0. -/
theorem emi_formula_and_zero_rate (loan_rate initialv : ℚ) (months : ℕ)
    (hm : months ≠ 0) :
    (rate_per_period loan_rate ≠ 0 →
      emi (rate_per_period loan_rate) months initialv =
        initialv * rate_per_period loan_rate *
          (1 + rate_per_period loan_rate) ^ months /
          ((1 + rate_per_period loan_rate) ^ months - 1)) ∧
    (rate_per_period loan_rate = 0 →
      emi (rate_per_period loan_rate) months initialv = initialv / months) ∧
    emi (rate_per_period 0) 12 100000 = 100000 / 12 ∧
    total_loan_interest (rate_per_period 0) 12 100000 = 0 := by
  have h0 : rate_per_period 0 = 0 := by norm_num [rate_per_period]
  refine ⟨?_, ?_, ?_, ?_⟩
  · intro hr
    set r := rate_per_period loan_rate with hrdef
    by_cases hc : (1 + r) ^ months - 1 = 0
    · simp [emi, npf_pmt, hr, hc]
    · unfold emi npf_pmt
      rw [if_neg hr]
      field_simp
      ring
  · intro hr
    rw [hr]
    unfold emi npf_pmt
    rw [if_pos rfl]
    have h : ((months : ℚ)) ≠ 0 := Nat.cast_ne_zero.mpr hm
    field_simp
  · rw [h0]
    unfold emi npf_pmt
    rw [if_pos rfl]
    norm_num
  · rw [h0]
    unfold total_loan_interest loan_schedule
    exact interest_sum_zero_rate 12 100000 _ 12 1 100000

/-- Witness for C2 at loan rate 0, principal 100000, 12 months. -/
theorem emi_formula_and_zero_rate_witness :
    emi (rate_per_period 0) 12 100000 = 100000 / 12 ∧
    total_loan_interest (rate_per_period 0) 12 100000 = 0 :=
  (emi_formula_and_zero_rate 0 100000 12 (by decide)).2.2

/-- C4: a tenure of at most 0 months or a principal of at most 0 (including
exactly 0) is rejected by the input layer — the tenure slider's range is
[1, 60] and the principal input's range is [100000, 10000000] — so the run
produces no result at all, partial or otherwise. -/
theorem invalid_input_rejected (principal b1 b2 lr : ℚ) (months : ℤ)
    (t : InvestorType) (custom b2t : ℚ) (h : months ≤ 0 ∨ principal ≤ 0) :
    runApp principal b1 b2 lr months t custom b2t = none := by
  rcases h with h | h
  · have hm : slider_int 1 60 months = none := by
      unfold slider_int
      rw [if_neg]
      rintro ⟨h1, -⟩
      omega
    unfold runApp readInputs number_input slider
    split_ifs <;> simp [hm, read_tax_rate, slider]
  · have hp : number_input 100000 10000000 principal = none := by
      unfold number_input
      rw [if_neg]
      rintro ⟨h1, -⟩
      linarith
    simp [runApp, readInputs, hp]

/-- Witness for C4: a principal of exactly 0 is rejected. -/
theorem invalid_input_rejected_witness :
    runApp 0 14 10 10 12 InvestorType.individual30 25 15 = none :=
  invalid_input_rejected 0 14 10 10 12 InvestorType.individual30 25 15
    (Or.inr (by decide))

/-- Monotonicity of the per-month projection value in the month index, for
nonnegative rate, principal and contribution. -/
theorem bond2_value_at_mono (initial c r : ℚ) (h0 : 0 ≤ r) (hi : 0 ≤ initial)
    (hc : 0 ≤ c) {m m' : ℕ} (hmm : m ≤ m') :
    bond2_value_at initial c r m ≤ bond2_value_at initial c r m' := by
  rcases eq_or_lt_of_le h0 with hr | hr
  · simp [bond2_value_at, ← hr]
  · have ht : (1:ℚ) ≤ 1 + r := by linarith
    have hpow : (1 + r) ^ m ≤ (1 + r) ^ m' := pow_le_pow_right₀ ht hmm
    unfold bond2_value_at
    have h1 : initial * (1 + r) ^ m ≤ initial * (1 + r) ^ m' :=
      mul_le_mul_of_nonneg_left hpow hi
    have h2 : ((1 + r) ^ m - 1) / r ≤ ((1 + r) ^ m' - 1) / r :=
      (div_le_div_iff_of_pos_right hr).mpr (by linarith)
    have h3 : c * (((1 + r) ^ m - 1) / r) ≤ c * (((1 + r) ^ m' - 1) / r) :=
      mul_le_mul_of_nonneg_left h2 hc
    have h5 : c * (((1 + r) ^ m - 1) / r) * (1 + r) ≤
        c * (((1 + r) ^ m' - 1) / r) * (1 + r) :=
      mul_le_mul_of_nonneg_right h3 (by linarith)
    linarith

/-- C9: with a nonnegative bond 2 rate (and the nonnegative principal and
contribution the app produces), the month-by-month growth projection list is
monotonically non-decreasing. -/
theorem projection_monotone (initialv msip bond2_rate : ℚ) (months : ℕ)
    (hb : 0 ≤ bond2_rate) (hi : 0 ≤ initialv) (hc : 0 ≤ msip) :
    (bond2_values initialv msip (monthly_bond2_return bond2_rate)
      months).Pairwise (· ≤ ·) := by
  have h0 : 0 ≤ monthly_bond2_return bond2_rate :=
    div_nonneg (div_nonneg hb (by norm_num)) (by norm_num)
  unfold bond2_values
  exact List.Pairwise.map _
    (fun a b hab =>
      bond2_value_at_mono initialv msip _ h0 hi hc (le_of_lt hab))
    (List.pairwise_lt_range' 1 months)

/-- Witness for C9 at principal 100000, contribution 1000, annual rate 10,
3 months. -/
theorem projection_monotone_witness :
    (bond2_values 100000 1000 (monthly_bond2_return 10) 3).Pairwise (· ≤ ·) :=
  projection_monotone 100000 1000 10 3 (by decide) (by decide) (by decide)

/-- The principal column of the schedule loop sums to the sum of the
individual principal payments for months m, m+1, …, m+k−1. -/
theorem scheduleGo_principal_sum (rate : ℚ) (months : ℕ) (initial emiv : ℚ) :
    ∀ (k m : ℕ) (rem : ℚ),
      ((scheduleGo rate months initial emiv k m rem).map Row.principal).sum =
        ∑ j ∈ Finset.range k, principal_payment rate (m + j) months initial := by
  intro k
  induction k with
  | zero => intro m rem; simp [scheduleGo]
  | succ k ih =>
    intro m rem
    rw [Finset.sum_range_succ']
    simp only [scheduleGo, List.map_cons, List.sum_cons]
    rw [ih (m + 1) (rem - principal_payment rate m months initial)]
    have hidx : ∀ j ∈ Finset.range k,
        principal_payment rate (m + (j + 1)) months initial =
          principal_payment rate (m + 1 + j) months initial := by
      intro j _
      rw [show m + (j + 1) = m + 1 + j from by omega]
    rw [Finset.sum_congr rfl hidx, Nat.add_zero]
    exact add_comm _ _

/-- The last remaining value of a nonempty cons is that of its tail. -/
theorem lastRemaining_cons (a : Row) (l : List Row) (h : l ≠ []) :
    lastRemaining (a :: l) = lastRemaining l := by
  cases l with
  | nil => exact absurd rfl h
  | cons b t => unfold lastRemaining; rw [List.getLast?_cons_cons]

/-- The remaining principal recorded in the loop's final row is the starting
value minus everything the principal column paid down. -/
theorem scheduleGo_lastRemaining (rate : ℚ) (months : ℕ) (initial emiv : ℚ) :
    ∀ (k m : ℕ) (rem : ℚ), k ≠ 0 →
      lastRemaining (scheduleGo rate months initial emiv k m rem) =
        rem - ((scheduleGo rate months initial emiv k m rem).map
          Row.principal).sum := by
  intro k
  induction k with
  | zero => intro m rem hk; exact absurd rfl hk
  | succ k ih =>
    intro m rem _
    cases k with
    | zero => simp [scheduleGo, lastRemaining]
    | succ k' =>
      have hcons : scheduleGo rate months initial emiv (k' + 1 + 1) m rem =
          { month := m
            emi := emiv
            principal := principal_payment rate m months initial
            interest := interest_payment rate m months initial
            remaining := rem - principal_payment rate m months initial } ::
          scheduleGo rate months initial emiv (k' + 1) (m + 1)
            (rem - principal_payment rate m months initial) := rfl
      have htail : scheduleGo rate months initial emiv (k' + 1) (m + 1)
          (rem - principal_payment rate m months initial) ≠ [] := by
        simp [scheduleGo]
      rw [hcons, lastRemaining_cons _ _ htail,
        ih (m + 1) (rem - principal_payment rate m months initial)
          (Nat.succ_ne_zero k'),
        List.map_cons, List.sum_cons]
      ring

/-- Telescoping identity: each month's principal payment is the drop in the
closed-form outstanding balance. -/
theorem principal_payment_telescope (rate : ℚ) (months : ℕ) (pv : ℚ)
    (hr : rate ≠ 0) (m : ℕ) :
    principal_payment rate (m + 1) months pv =
      balance rate months pv m - balance rate months pv (m + 1) := by
  unfold principal_payment npf_ppmt npf_ipmt npf_fv balance
  rw [if_neg hr]
  simp only [Nat.add_sub_cancel]
  generalize npf_pmt rate months pv = P
  field_simp
  ring

/-- The closed-form balance starts at the principal. -/
theorem balance_zero (rate : ℚ) (months : ℕ) (pv : ℚ) :
    balance rate months pv 0 = pv := by
  simp [balance]

/-- After the full tenure the closed-form balance is zero (the defining
property of the EMI), provided the rate is nonzero and the discount factor
is nondegenerate. -/
theorem balance_final (rate : ℚ) (months : ℕ) (pv : ℚ) (hr : rate ≠ 0)
    (hne : (1 + rate) ^ months - 1 ≠ 0) :
    balance rate months pv months = 0 := by
  have hD : ((1 + rate) ^ months - 1) / rate ≠ 0 := div_ne_zero hne hr
  unfold balance npf_pmt
  rw [if_neg hr, div_mul_cancel₀ _ hD]
  ring

/-- The principal payments of months 1..n sum exactly to the principal. -/
theorem principal_payments_total (rate : ℚ) (months : ℕ) (pv : ℚ)
    (hr : rate ≠ 0) (hne : (1 + rate) ^ months - 1 ≠ 0) :
    ∑ j ∈ Finset.range months, principal_payment rate (1 + j) months pv
      = pv := by
  have h1 : ∀ j ∈ Finset.range months,
      principal_payment rate (1 + j) months pv =
        balance rate months pv j - balance rate months pv (j + 1) := by
    intro j _
    rw [show 1 + j = j + 1 from Nat.add_comm 1 j]
    exact principal_payment_telescope rate months pv hr j
  rw [Finset.sum_congr rfl h1, Finset.sum_range_sub' (balance rate months pv),
    balance_zero, balance_final rate months pv hr hne, sub_zero]

/-- C1: for positive principal, positive tenure and a positive loan rate,
the schedule's principal column sums to the principal within 1e-6 relative
tolerance (here: exactly), and the remaining principal recorded in the final
month's row is within 1e-6 of 0 (here: exactly 0). -/
theorem amortization_sum_and_final_remaining (loan_rate initialv : ℚ)
    (months : ℕ) (hl : 0 < loan_rate) (hp : 0 < initialv) (hm : months ≠ 0) :
    |(((loan_schedule (rate_per_period loan_rate) months initialv).map
        Row.principal).sum) - initialv| ≤ initialv * (1 / 1000000) ∧
    |lastRemaining (loan_schedule (rate_per_period loan_rate) months initialv)|
      ≤ 1 / 1000000 := by
  set r := rate_per_period loan_rate with hrdef
  have hr0 : 0 < r := by
    rw [hrdef]
    unfold rate_per_period
    positivity
  have hr : r ≠ 0 := ne_of_gt hr0
  have hone : (1:ℚ) < (1 + r) ^ months := one_lt_pow₀ (by linarith) hm
  have hpow : (1 + r) ^ months - 1 ≠ 0 := sub_ne_zero.mpr (ne_of_gt hone)
  have hsum : ((loan_schedule r months initialv).map Row.principal).sum
      = initialv := by
    unfold loan_schedule
    rw [scheduleGo_principal_sum]
    exact principal_payments_total r months initialv hr hpow
  have hlast : lastRemaining (loan_schedule r months initialv) = 0 := by
    rw [show loan_schedule r months initialv =
        scheduleGo r months initialv (emi r months initialv) months 1 initialv
        from rfl,
      scheduleGo_lastRemaining r months initialv
        (emi r months initialv) months 1 initialv hm,
      scheduleGo_principal_sum,
      principal_payments_total r months initialv hr hpow, sub_self]
  refine ⟨?_, ?_⟩
  · rw [hsum, sub_self, abs_zero]
    positivity
  · rw [hlast, abs_zero]
    norm_num

/-- Witness for C1 at loan rate 12, principal 100000, 1 month. -/
theorem amortization_sum_and_final_remaining_witness :
    |(((loan_schedule (rate_per_period 12) 1 100000).map
        Row.principal).sum) - 100000| ≤ 100000 * (1 / 1000000) ∧
    |lastRemaining (loan_schedule (rate_per_period 12) 1 100000)|
      ≤ 1 / 1000000 :=
  amortization_sum_and_final_remaining 12 100000 1 (by decide) (by decide)
    (by decide)
